import Mathlib

/-!
# Verification of the dlnap discovery/control pipeline

Shallow embedding of `dlnap.py` (module `dlnap`, version 0.2): the pure
extractor functions (`_get_port`, `_get_control_url`, `_get_location_url`,
`_get_friendly_name`), the device model (`DlnapDevice` with its constructor,
equality, and the two playback commands), and the discovery loop
(`discover`).  Network effects are made explicit: the description-document
fetch is an oracle `String → Option String` (`none` models any failure of
the HTTP fetch/decode), and commands return the list of unicast sends they
would perform instead of performing them.

Python regular-expression calls (`re.findall` with greedy `.*`) are embedded
by their leftmost-greedy matching semantics over character lists, and
Python string operations (`split`, `replace`, `startswith`, `in`,
`str.format`) by equivalent list/string functions.
-/

namespace Dlnap

/-- `URN_AVTransport` constant of the source module. -/
def URN_AVTransport : String := "urn:schemas-upnp-org:service:AVTransport:1"

/-! ## String scanning primitives

`strFindAll pat s` lists, in increasing order, every index `i` of `s` at
which the literal pattern `pat` occurs.  This is the basic notion used to
embed Python's `in` operator, `str.startswith`, and the literal parts of
the regular expressions in the source. -/

def strFindAll (pat s : List Char) : List Nat :=
  (List.range (s.length + 1)).filter (fun i => pat.isPrefixOf (s.drop i))

/-- The slice `s[a..b)` of a character list. -/
def seg (s : List Char) (a b : Nat) : List Char :=
  (s.drop a).take (b - a)

/-- Python's substring operator `pat in hay` on strings. -/
def strContains (hay pat : String) : Bool :=
  !(strFindAll pat.toList hay.toList).isEmpty

/-! ## Extractors -/

/-- Model of `raw.replace('\n', '')`: remove every newline character. -/
def flattenNl (raw : String) : List Char :=
  raw.toList.filter (fun c => c ≠ '\n')

def svcOpenTag : List Char := "<serviceType>".toList
def svcCloseTag : List Char := "</serviceType>".toList
def ctrlOpenTag : List Char := "<controlURL>".toList
def ctrlCloseTag : List Char := "</controlURL>".toList

/-- The literal `<serviceType>urn</serviceType>` block that opens the
regular expression of `_get_control_url` (its urn is
`re.escape`d, hence matched literally). -/
def svcTag (urn : String) : List Char :=
  svcOpenTag ++ urn.toList ++ svcCloseTag

/-- Greedy tail match for `_get_control_url`: on the text `t` that follows
the `<serviceType>urn</serviceType>` literal, the regex
`.*\<controlURL\>(.*)\</controlURL\>` (on newline-free text) puts
`<controlURL>` at the last feasible position (greedy leading `.*`) and then
captures greedily up to the last following `</controlURL>`.  Returns the
captured group, or `none` when no match is possible. -/
def ctrlTailMatch (t : List Char) : Option (List Char) :=
  let opens := strFindAll ctrlOpenTag t
  let closes := strFindAll ctrlCloseTag t
  let feasible := opens.filter
    (fun j => closes.any (fun l => decide (j + ctrlOpenTag.length ≤ l)))
  match feasible.getLast? with
  | none => none
  | some j =>
    match (closes.filter (fun l => decide (j + ctrlOpenTag.length ≤ l))).getLast? with
    | none => none
    | some l => some (seg t (j + ctrlOpenTag.length) l)

/-- Positions of `<serviceType>URN</serviceType>` in the flattened
description at which the whole regex of `_get_control_url` can match. -/
def ctrlStarts (s : List Char) : List Nat :=
  (strFindAll (svcTag URN_AVTransport) s).filter
    (fun i => (ctrlTailMatch (s.drop (i + (svcTag URN_AVTransport).length))).isSome)

/-- `_get_control_url(raw)`: first (leftmost) match of the greedy regex
`\<serviceType\>URN\</serviceType\>.*\<controlURL\>(.*)\</controlURL\>`
against `raw` with all newlines removed; group of that match, else `''`. -/
def _get_control_url (raw : String) : String :=
  match (ctrlStarts (flattenNl raw)).head? with
  | none => ""
  | some i =>
    match ctrlTailMatch ((flattenNl raw).drop (i + (svcTag URN_AVTransport).length)) with
    | none => ""
    | some g => String.mk g

def fnOpenTag : List Char := "<friendlyName>".toList
def fnCloseTag : List Char := "</friendlyName>".toList

/-- `True` when a character list contains no newline: in the regexes of the
source, `.` does not match a newline. -/
def noNl (l : List Char) : Bool := l.all (fun c => c ≠ '\n')

/-- Feasible group-end positions for a `friendlyName` match starting at
`i`: closing-tag occurrences far enough right with only newline-free text
in between (`.` does not cross lines). -/
def fnCandidates (s : List Char) (i : Nat) : List Nat :=
  (strFindAll fnCloseTag s).filter
    (fun l => decide (i + fnOpenTag.length ≤ l) && noNl (seg s (i + fnOpenTag.length) l))

/-- Opening-tag positions at which the whole `friendlyName` regex can
match. -/
def fnStarts (s : List Char) : List Nat :=
  (strFindAll fnOpenTag s).filter (fun i => !(fnCandidates s i).isEmpty)

/-- `_get_friendly_name(raw)`: first match of the greedy regex
`\<friendlyName\>(.*)\</friendlyName\>` (here `.` excludes newlines and the
input is not flattened); group of that match, else `'Unknown'`. -/
def _get_friendly_name (raw : String) : String :=
  match (fnStarts raw.toList).head? with
  | none => "Unknown"
  | some i =>
    match (fnCandidates raw.toList i).getLast? with
    | none => "Unknown"
    | some l => String.mk (seg raw.toList (i + fnOpenTag.length) l)

/-- Decimal value of a digit run, as computed by Python's `int()`. -/
def natOfDigits (l : List Char) : Nat :=
  l.foldl (fun n c => n * 10 + (c.toNat - 48)) 0

def httpScheme : List Char := "http://".toList

/-- `_get_port(location)`: leftmost-greedy match of `http://.*:(\d+).*`
(`.` excludes newlines); the group is the maximal digit run after the last
feasible `:`; `int` of it, or `80` when there is no match. -/
def _get_port (location : String) : Nat :=
  let s := location.toList
  let colonCands (h : Nat) : List Nat :=
    (List.range s.length).filter (fun c =>
      decide (h + httpScheme.length ≤ c) &&
      (seg s c (c + 1) == [':']) &&
      (match s.drop (c + 1) with
       | [] => false
       | d :: _ => d.isDigit) &&
      noNl (seg s (h + httpScheme.length) c))
  let starts := (strFindAll httpScheme s).filter (fun h => !(colonCands h).isEmpty)
  match starts.head? with
  | none => 80
  | some h =>
    match (colonCands h).getLast? with
    | none => 80
    | some c => natOfDigits ((s.drop (c + 1)).takeWhile Char.isDigit)

/-- Python's `raw.split('\r\n')`: split on non-overlapping occurrences of
the two-character separator, scanning left to right. -/
def splitCRLF : List Char → List (List Char)
  | [] => [[]]
  | '\r' :: '\n' :: rest => [] :: splitCRLF rest
  | c :: rest =>
    match splitCRLF rest with
    | [] => [[c]]
    | h :: t => (c :: h) :: t

def locColon : List Char := "LOCATION:".toList
def locColonSp : List Char := "LOCATION: ".toList

/-- Python's `d.replace('LOCATION: ', '')`: remove non-overlapping
occurrences of `'LOCATION: '` (10 characters), scanning left to right.
The inner match skips the matched occurrence; its wildcard arm is
unreachable, since a successful 10-character prefix test guarantees at
least 9 characters after `c`. -/
def stripLoc : List Char → List Char
  | [] => []
  | c :: rest =>
    if locColonSp.isPrefixOf (c :: rest) then
      match rest with
      | _ :: _ :: _ :: _ :: _ :: _ :: _ :: _ :: _ :: rest9 => stripLoc rest9
      | _ => []
    else
      c :: stripLoc rest

/-- `_get_location_url(raw)`: first CRLF-delimited line that
`startswith('LOCATION:')`, with every occurrence of `'LOCATION: '`
removed; `''` when no line qualifies. -/
def _get_location_url (raw : String) : String :=
  match (splitCRLF raw.toList).find? (fun d => locColon.isPrefixOf d) with
  | some d => String.mk (stripLoc d)
  | none => ""

/-! ## Device model

`DlnapDevice.__init__` decodes the response, records the ip, and inside a
`try` block extracts the location, the port, fetches the description
document and extracts name / AVTransport flag / control url.  Any failure
in that chain is caught (and logged); the fields set before the failure
keep their values, the rest keep their `None` / `False` initial values.
The only fallible step is the HTTP fetch+decode of the description, which
we model as an oracle `fetch : String → Option String` from location urls
to document text (`none` = failure). -/

structure DlnapDevice where
  ip : String
  location : String
  port : Nat
  control_url : Option String
  name : Option String
  has_av_transport : Bool
deriving DecidableEq

/-- The `<serviceType>urn</serviceType>` string whose literal presence in
the description xml sets `has_av_transport`. -/
def avTransportNeedle : String :=
  "<serviceType>" ++ URN_AVTransport ++ "</serviceType>"

/-- `DlnapDevice.__init__(raw, ip)` under fetch oracle `fetch`: location
and port are extracted first (these steps cannot fail), then the
description document is fetched; on failure the remaining fields keep
their initial `None` / `False` values. -/
def DlnapDevice.init (fetch : String → Option String) (raw ip : String) :
    DlnapDevice :=
  match fetch (_get_location_url raw) with
  | none =>
    { ip := ip, location := _get_location_url raw,
      port := _get_port (_get_location_url raw),
      control_url := none, name := none, has_av_transport := false }
  | some desc =>
    { ip := ip, location := _get_location_url raw,
      port := _get_port (_get_location_url raw),
      name := some (_get_friendly_name desc),
      has_av_transport := strContains desc avTransportNeedle,
      control_url := some (_get_control_url desc) }

/-- `DlnapDevice.__eq__`: equality of `name` and `ip` only. -/
def deviceEq (a b : DlnapDevice) : Bool :=
  a.name == b.name && a.ip == b.ip

/-- Python's `str()` conversion applied to an optional string field
(`str(None)` is `"None"`), as done by `'...{}...'.format(field)`. -/
def pyStr : Option String → String
  | none => "None"
  | some s => s

/-! ## Playback commands

`_send_tcp` sends `payload.encode()` — the UTF-8 bytes — over TCP; the
commands build an HTTP POST whose `Content-Length` header carries
`len(payload)`, the *character* count of the body.  Commands are embedded
as the unicast sends they perform: a pair of destination `(ip, port)` and
request text. -/

/-- `len(payload)` as used in `'Content-Length: {}'.format(len(payload))`. -/
def contentLengthHeaderValue (payload : String) : Nat := payload.length

/-- `len(payload.encode())`: the number of bytes `_send_tcp` actually
writes for this payload. -/
def sentByteLength (payload : String) : Nat := payload.utf8ByteSize

/-- The SOAP body built by `DlnapDevice._set_av` (the triple-quoted
template with `URN_AVTransport`, `instance_id` and `url` formatted in). -/
def setAvPayload (iid : Nat) (url : String) : String :=
  "<?xml version=\"1.0\" encoding=\"utf-8\"?>\n         <s:Envelope xmlns:s=\"http://schemas.xmlsoap.org/soap/envelope/\" s:encodingStyle=\"http://schemas.xmlsoap.org/soap/encoding/\">\n            <s:Body>\n               <u:SetAVTransportURI xmlns:u=\"" ++
  URN_AVTransport ++
  "\">\n                  <InstanceID>" ++
  toString iid ++
  "</InstanceID>\n                  <CurrentURI>" ++
  url ++
  "</CurrentURI>\n                  <CurrentURIMetaData />\n               </u:SetAVTransportURI>\n            </s:Body>\n         </s:Envelope>"

/-- The SOAP body built by `DlnapDevice._play`. -/
def playPayload (iid : Nat) : String :=
  "<?xml version=\"1.0\" encoding=\"utf-8\"?>\n         <s:Envelope xmlns:s=\"http://schemas.xmlsoap.org/soap/envelope/\" s:encodingStyle=\"http://schemas.xmlsoap.org/soap/encoding/\">\n            <s:Body>\n               <u:Play xmlns:u=\"" ++
  URN_AVTransport ++
  "\">\n                  <InstanceID>" ++
  toString iid ++
  "</InstanceID>\n                  <Speed>1</Speed>\n               </u:Play>\n            </s:Body>\n         </s:Envelope>"

/-- `"\r\n".join(lines)`. -/
def joinCRLF (lines : List String) : String :=
  String.intercalate "\r\n" lines

/-- The HTTP POST request text built around a SOAP body by both commands:
identical header lines except for the action name in `SOAPACTION`. -/
def soapRequest (d : DlnapDevice) (action : String) (payload : String) : String :=
  joinCRLF [
    "POST " ++ pyStr d.control_url ++ " HTTP/1.1",
    "User-Agent: dlnap/0.1",
    "Accept: */*",
    "Content-Type: text/xml; charset=\"utf-8\"",
    "HOST: " ++ d.ip ++ ":" ++ toString d.port,
    "Content-Length: " ++ toString (contentLengthHeaderValue payload),
    "SOAPACTION: \"" ++ URN_AVTransport ++ "#" ++ action ++ "\"",
    "Connection: close",
    "",
    payload]

/-- A unicast send performed through `_send_tcp`: destination and request. -/
abbrev Send := (String × Nat) × String

/-- `DlnapDevice._set_av(url, instance_id)`: the single unicast send it
performs. -/
def DlnapDevice._set_av (d : DlnapDevice) (url : String) (iid : Nat) : Send :=
  ((d.ip, d.port), soapRequest d "SetAVTransportURI" (setAvPayload iid url))

/-- `DlnapDevice._play(instance_id)`: the single unicast send it performs. -/
def DlnapDevice._play (d : DlnapDevice) (iid : Nat) : Send :=
  ((d.ip, d.port), soapRequest d "Play" (playPayload iid))

/-- `DlnapDevice.play(url)`: `_set_av(url)` then `_play()`, both with the
default instance id 0, unconditionally in that order. -/
def DlnapDevice.play (d : DlnapDevice) (url : String) : List Send :=
  [d._set_av url 0, d._play 0]

/-! ## Discovery

`discover` reads datagrams until the timeout; each datagram `(raw, ip)`
is turned into a device; the device is appended unless an equal device
(`__eq__`) is already present and unless the non-empty name filter
(`name in d.name`) rejects it.  When the filter is non-empty and `d.name`
is `None`, Python's `name in None` raises `TypeError`; we model the raised
exception as `Except.error "TypeError"`.  The list of received datagrams
stands for the sequence of successful `recvfrom` results within the
timeout window. -/

def discoverLoop (fetch : String → Option String) (name : String) :
    List (String × String) → List DlnapDevice →
    Except String (List DlnapDevice)
  | [], devices => .ok devices
  | (raw, ip) :: rest, devices =>
    let d := DlnapDevice.init fetch raw ip
    if devices.any (fun x => deviceEq x d) then
      discoverLoop fetch name rest devices
    else if name = "" then
      discoverLoop fetch name rest (devices ++ [d])
    else
      match d.name with
      | none => .error "TypeError"
      | some n =>
        if strContains n name then
          discoverLoop fetch name rest (devices ++ [d])
        else
          discoverLoop fetch name rest devices

/-- `discover(name=...)` over a list of received responses. -/
def discover (fetch : String → Option String) (name : String)
    (responses : List (String × String)) : Except String (List DlnapDevice) :=
  discoverLoop fetch name responses []

/-- Device list of a discovery outcome, empty in the raising case: a total
observation used to state properties of successful runs. -/
def okOrNil : Except String (List DlnapDevice) → List DlnapDevice
  | .ok l => l
  | .error _ => []

/-- The predicate the name filter applies to a retained device: devices
kept by `discover` with filter `f` are exactly the devices kept with the
empty filter that satisfy it (it reads only the `name` field). -/
def nameFilterKeep (f : String) (d : DlnapDevice) : Bool :=
  f == "" ||
    (match d.name with
     | some n => strContains n f
     | none => false)

/-! ## The multicast socket scope: `_send_udp` under `@contextmanager`

`_send_udp` is a generator decorated with `@contextmanager`: it opens the
socket, sends the payload, `yield`s the socket, and closes it.  Per the
`contextlib` protocol, a normal exit of the `with` body resumes the
generator past the yield, so the statements after the yield run; an
exceptional exit throws the exception into the generator at the yield, so
the statements after the yield run only if the yield is lexically enclosed
in a `try`/`finally`.  We record the generator's statement layout and
whether its yield is so enclosed — in the source it is not. -/

inductive GenStmt where
  | openSock
  | sendPayload
  | yieldSock
  | closeSock
deriving DecidableEq, BEq

structure ContextManagerGen where
  beforeYield : List GenStmt
  yieldInTryFinally : Bool
  afterYield : List GenStmt

/-- The body of `_send_udp`: open, send, yield, close — with no
`try`/`finally` around the yield. -/
def sendUdpGen : ContextManagerGen :=
  { beforeYield := [.openSock, .sendPayload],
    yieldInTryFinally := false,
    afterYield := [.closeSock] }

/-- How the `with _send_udp(...) as sock:` body exits: normally, or by
raising (e.g. the `Exception('Getting response failed')` thrown when
`select` reports the socket in the error set). -/
inductive WithExit where
  | normal
  | raised
deriving DecidableEq

/-- The generator statements that run when the `with` body exits, per the
`contextlib.contextmanager` protocol. -/
def stmtsRunOnExit (g : ContextManagerGen) : WithExit → List GenStmt
  | .normal => g.afterYield
  | .raised => if g.yieldInTryFinally then g.afterYield else []

/-- Whether `sock.close()` executes on the given exit path. -/
def socketClosedOnExit (g : ContextManagerGen) (e : WithExit) : Bool :=
  (stmtsRunOnExit g e).contains .closeSock

/-! ## Helper lemmas on the string primitives -/

theorem isPrefixOf_refl (p : List Char) : p.isPrefixOf p = true := by
  induction p with
  | nil => rfl
  | cons c cs ih => simp [List.isPrefixOf, ih]

theorem nil_isPrefixOf (l : List Char) : List.isPrefixOf [] l = true := by
  cases l <;> rfl

theorem isPrefixOf_append_right {p l : List Char} (t : List Char)
    (h : p.isPrefixOf l = true) : p.isPrefixOf (l ++ t) = true := by
  induction p generalizing l with
  | nil => exact nil_isPrefixOf _
  | cons c cs ih =>
    cases l with
    | nil => simp [List.isPrefixOf] at h
    | cons b bs =>
      simp only [List.isPrefixOf, Bool.and_eq_true, beq_iff_eq] at h
      simp only [List.cons_append, List.isPrefixOf, Bool.and_eq_true, beq_iff_eq]
      exact ⟨h.1, ih h.2⟩

theorem mem_strFindAll {pat s : List Char} {i : Nat} :
    i ∈ strFindAll pat s ↔ i ≤ s.length ∧ pat.isPrefixOf (s.drop i) = true := by
  simp [strFindAll, List.mem_filter, List.mem_range, Nat.lt_succ_iff]

theorem strContains_of_occurrence {hay pat : String} (i : Nat)
    (h1 : i ≤ hay.toList.length)
    (h2 : pat.toList.isPrefixOf (hay.toList.drop i) = true) :
    strContains hay pat = true := by
  have hmem : i ∈ strFindAll pat.toList hay.toList := mem_strFindAll.mpr ⟨h1, h2⟩
  unfold strContains
  cases hL : strFindAll pat.toList hay.toList with
  | nil => rw [hL] at hmem; exact absurd hmem (List.not_mem_nil i)
  | cons a as => simp

theorem exists_occurrence_of_strContains {hay pat : String}
    (h : strContains hay pat = true) :
    ∃ i, i ≤ hay.toList.length ∧ pat.toList.isPrefixOf (hay.toList.drop i) = true := by
  unfold strContains at h
  cases hL : strFindAll pat.toList hay.toList with
  | nil => rw [hL] at h; simp at h
  | cons a as =>
    refine ⟨a, ?_⟩
    have : a ∈ strFindAll pat.toList hay.toList := by rw [hL]; exact List.mem_cons_self a as
    exact mem_strFindAll.mp this

theorem strContains_refl (p : String) : strContains p p = true := by
  refine strContains_of_occurrence 0 (Nat.zero_le _) ?_
  rw [List.drop_zero]
  exact isPrefixOf_refl p.toList

theorem toList_append (a b : String) : (a ++ b).toList = a.toList ++ b.toList :=
  String.data_append a b

theorem strContains_append_left (s t pat : String)
    (h : strContains s pat = true) : strContains (s ++ t) pat = true := by
  obtain ⟨i, h1, h2⟩ := exists_occurrence_of_strContains h
  refine strContains_of_occurrence i ?_ ?_
  · rw [toList_append, List.length_append]
    exact Nat.le_add_right_of_le h1
  · rw [toList_append, List.drop_append_of_le_length h1]
    exact isPrefixOf_append_right t.toList h2

theorem strContains_append_right (s t pat : String)
    (h : strContains t pat = true) : strContains (s ++ t) pat = true := by
  obtain ⟨i, h1, h2⟩ := exists_occurrence_of_strContains h
  refine strContains_of_occurrence (s.toList.length + i) ?_ ?_
  · rw [toList_append, List.length_append]
    exact Nat.add_le_add_left h1 _
  · rw [toList_append, List.drop_append]
    exact h2

/-- Containment lifts from a command's SOAP body to the full HTTP request
built around it (the body is the last CRLF-joined segment). -/
theorem strContains_soapRequest_of_payload (d : DlnapDevice)
    (action payload pat : String) (h : strContains payload pat = true) :
    strContains (soapRequest d action payload) pat = true := by
  simp only [soapRequest, joinCRLF, String.intercalate, String.intercalate.go]
  exact strContains_append_right _ _ _ h

theorem setAvPayload_contains_url (iid : Nat) (url : String) :
    strContains (setAvPayload iid url) url = true := by
  simp only [setAvPayload]
  apply strContains_append_left
  apply strContains_append_right
  exact strContains_refl url

set_option maxRecDepth 40000 in
theorem setAvPayload_contains_action (iid : Nat) (url : String) :
    strContains (setAvPayload iid url) "SetAVTransportURI" = true := by
  simp only [setAvPayload]
  apply strContains_append_left
  apply strContains_append_left
  apply strContains_append_left
  apply strContains_append_left
  apply strContains_append_left
  apply strContains_append_left
  decide

set_option maxRecDepth 40000 in
theorem playPayload_contains_speed (iid : Nat) :
    strContains (playPayload iid) "<Speed>1</Speed>" = true := by
  simp only [playPayload]
  apply strContains_append_right
  decide

set_option maxRecDepth 40000 in
theorem playPayload_contains_action (iid : Nat) :
    strContains (playPayload iid) "Play" = true := by
  simp only [playPayload]
  apply strContains_append_left
  apply strContains_append_left
  apply strContains_append_left
  apply strContains_append_left
  decide

/-! ## Claims -/

/-- C2 (code bug): the multicast socket is closed when the `with` body of
`discover` exits normally, but NOT when it exits by raising — `_send_udp`
has no `try`/`finally` around its yield, so on an exceptional exit the
exception thrown into the generator skips `sock.close()`.  The claim that
the socket is released on every exit path, including the hard abort raised
on a socket error during the wait, fails on the raising path. -/
theorem sendUdp_close_skipped_on_raise :
    socketClosedOnExit sendUdpGen WithExit.normal = true ∧
    socketClosedOnExit sendUdpGen WithExit.raised = false := by
  decide

/-- C6: `play(url)` performs exactly two unicast sends, in order: first the
`SetAVTransportURI` request whose body contains the given url, then the
`Play` request whose body carries `<Speed>1</Speed>`; both are issued
unconditionally (the send list never depends on the first send's outcome). -/
theorem play_two_sends (d : DlnapDevice) (url : String) :
    ∃ r1 r2 : String,
      d.play url = [((d.ip, d.port), r1), ((d.ip, d.port), r2)] ∧
      strContains r1 url = true ∧
      strContains r1 "SetAVTransportURI" = true ∧
      strContains r2 "<Speed>1</Speed>" = true ∧
      strContains r2 "Play" = true := by
  refine ⟨soapRequest d "SetAVTransportURI" (setAvPayload 0 url),
          soapRequest d "Play" (playPayload 0), rfl, ?_, ?_, ?_, ?_⟩
  · exact strContains_soapRequest_of_payload _ _ _ _ (setAvPayload_contains_url 0 url)
  · exact strContains_soapRequest_of_payload _ _ _ _ (setAvPayload_contains_action 0 url)
  · exact strContains_soapRequest_of_payload _ _ _ _ (playPayload_contains_speed 0)
  · exact strContains_soapRequest_of_payload _ _ _ _ (playPayload_contains_action 0)

set_option maxRecDepth 100000 in
/-- C8 (code bug): the `Content-Length` header carries `len(payload)` — the
character count — while `_send_tcp` sends `payload.encode()`, whose byte
length differs as soon as the url holds a non-ASCII character.  At
`url = "http://host/café.mp4"` the header undercounts by one byte; for the
all-ASCII `Play` body the two lengths agree. -/
theorem contentLength_mismatch_nonascii :
    contentLengthHeaderValue (setAvPayload 0 "http://host/café.mp4") ≠
      sentByteLength (setAvPayload 0 "http://host/café.mp4") ∧
    contentLengthHeaderValue (playPayload 0) = sentByteLength (playPayload 0) := by
  constructor
  · decide
  · decide

/-! ## Lemmas on `stripLoc` and occurrence lists -/

theorem stripLoc_locSp_append (l : List Char) :
    stripLoc (locColonSp ++ l) = stripLoc l := by
  have hpre : locColonSp.isPrefixOf ('L' :: ("OCATION: ".toList ++ l)) = true :=
    isPrefixOf_append_right l (isPrefixOf_refl _)
  rw [show locColonSp ++ l = 'L' :: ("OCATION: ".toList ++ l) from rfl]
  rw [stripLoc.eq_def]
  simp only [hpre, if_true]
  rfl

theorem strFindAll_nil_of_cons {pat : List Char} {c : Char} {rest : List Char}
    (h : strFindAll pat (c :: rest) = []) : strFindAll pat rest = [] := by
  by_contra hne
  obtain ⟨i, hi⟩ := List.exists_mem_of_ne_nil _ hne
  obtain ⟨hle, hpre⟩ := mem_strFindAll.mp hi
  have : i + 1 ∈ strFindAll pat (c :: rest) := by
    refine mem_strFindAll.mpr ⟨?_, ?_⟩
    · simpa using Nat.succ_le_succ hle
    · simpa using hpre
  rw [h] at this
  exact List.not_mem_nil _ this

theorem stripLoc_eq_self {l : List Char} (h : strFindAll locColonSp l = []) :
    stripLoc l = l := by
  induction l with
  | nil => rfl
  | cons c rest ih =>
    have h0 : locColonSp.isPrefixOf (c :: rest) = false := by
      by_contra hb
      rw [Bool.not_eq_false] at hb
      have : (0 : Nat) ∈ strFindAll locColonSp (c :: rest) :=
        mem_strFindAll.mpr ⟨Nat.zero_le _, by simpa using hb⟩
      rw [h] at this
      exact List.not_mem_nil _ this
    rw [stripLoc.eq_def]
    simp only [h0, Bool.false_eq_true, if_false]
    rw [ih (strFindAll_nil_of_cons h)]

/-! ## Claims on the extractors -/

/-- The two-service description used to exhibit the greedy behaviour of
`_get_control_url`: the AVTransport block's own control url is `/avt`, a
later unrelated service's is `/cm`. -/
def multiServiceDesc : String :=
  "<serviceType>urn:schemas-upnp-org:service:AVTransport:1</serviceType><controlURL>/avt</controlURL><serviceType>urn:other</serviceType><controlURL>/cm</controlURL>"

/-- The spec's split-lines example: one AVTransport service whose control
url element sits on the next line. -/
def avtSplitDesc : String :=
  "<serviceType>urn:schemas-upnp-org:service:AVTransport:1</serviceType>\n<controlURL>/ctrl</controlURL>"

/-- A description advertising only an unrelated service type. -/
def unrelatedServiceDesc : String :=
  "<serviceType>urn:other:service:Else:1</serviceType><controlURL>/x</controlURL>"

set_option maxRecDepth 200000 in
/-- C4 (counterexample): on a description with a second service after the
AVTransport block, `_get_control_url` returns the LAST control url of the
document (`/cm`), not the one immediately associated with the AVTransport
service type (`/avt`) — the greedy `.*` jumps over the immediate one. -/
theorem control_url_not_immediate :
    _get_control_url multiServiceDesc = "/cm" ∧ ("/cm" : String) ≠ "/avt" := by
  constructor
  · decide
  · decide

set_option maxRecDepth 200000 in
/-- C4 (amended): `_get_control_url` returns the empty string whenever the
`<serviceType>URN</serviceType>` block is absent from the newline-flattened
description; when the block is present it returns the greedy capture — for
the spec's split-lines single-pair example that is the associated text
`/ctrl`, while with several later control urls it is the last one. -/
theorem control_url_amended (raw : String)
    (h : strFindAll (svcTag URN_AVTransport) (flattenNl raw) = []) :
    _get_control_url raw = "" ∧
    _get_control_url avtSplitDesc = "/ctrl" ∧
    _get_control_url multiServiceDesc = "/cm" := by
  refine ⟨?_, by decide, by decide⟩
  have hs : ctrlStarts (flattenNl raw) = [] := by
    unfold ctrlStarts
    rw [h]
    rfl
  unfold _get_control_url
  rw [hs]
  rfl

set_option maxRecDepth 200000 in
theorem control_url_amended_witness :
    _get_control_url unrelatedServiceDesc = "" ∧
    _get_control_url avtSplitDesc = "/ctrl" ∧
    _get_control_url multiServiceDesc = "/cm" :=
  control_url_amended unrelatedServiceDesc (by decide)

/-- C7 (counterexample): a line that starts with `LOCATION:` but without
the colon-space separator is still matched by `_get_location_url`
(`startswith('LOCATION:')`), and since `replace('LOCATION: ', '')` finds
nothing to remove, the WHOLE line is returned — not the remainder after a
`'LOCATION: '` prefix (which is absent here, so the claim would demand
the empty string). -/
theorem location_url_matches_colon_only :
    _get_location_url "LOCATION:x" = "LOCATION:x" ∧
    ("LOCATION:x" : String) ≠ "" := by
  constructor
  · decide
  · decide

/-- C7 (amended): `_get_location_url` scans the CRLF-delimited lines for
the first one beginning with `LOCATION:` (colon only — the space is not
part of the tested prefix) and returns that line with every occurrence of
`'LOCATION: '` removed; for a line of the usual form `'LOCATION: ' ++ rest`
(with no further `'LOCATION: '` inside `rest`) that is exactly the
remainder `rest`; when no line starts with `LOCATION:` it returns `""`. -/
theorem location_url_amended (raw : String) (rest : List Char) (raw2 : String)
    (h1 : (splitCRLF raw.toList).find? (fun d => locColon.isPrefixOf d) =
      some (locColonSp ++ rest))
    (h2 : strFindAll locColonSp rest = [])
    (h3 : (splitCRLF raw2.toList).find? (fun d => locColon.isPrefixOf d) = none) :
    _get_location_url raw = String.mk rest ∧
    _get_location_url raw2 = "" := by
  constructor
  · unfold _get_location_url
    rw [h1]
    show String.mk (stripLoc (locColonSp ++ rest)) = String.mk rest
    rw [stripLoc_locSp_append, stripLoc_eq_self h2]
  · unfold _get_location_url
    rw [h3]

set_option maxRecDepth 100000 in
theorem location_url_amended_witness :
    _get_location_url "HOST: x\r\nLOCATION: http://10.0.0.5:80/desc.xml\r\nEXT:" =
      String.mk "http://10.0.0.5:80/desc.xml".toList ∧
    _get_location_url "HOST: y\r\nEXT:" = "" :=
  location_url_amended "HOST: x\r\nLOCATION: http://10.0.0.5:80/desc.xml\r\nEXT:"
    "http://10.0.0.5:80/desc.xml".toList "HOST: y\r\nEXT:"
    (by decide) (by decide) (by decide)

set_option maxRecDepth 100000 in
/-- C9 (counterexample): with two `friendlyName` elements on one line, the
greedy `(.*)` captures up to the LAST closing tag, so `_get_friendly_name`
does not return the text content of the first element (`A`). -/
theorem friendly_name_not_first_element :
    _get_friendly_name "<friendlyName>A</friendlyName><friendlyName>B</friendlyName>" =
      "A</friendlyName><friendlyName>B" ∧
    ("A</friendlyName><friendlyName>B" : String) ≠ "A" := by
  constructor
  · decide
  · decide

/-- C9 (amended): when the description holds exactly one `<friendlyName>`
and one `</friendlyName>` occurrence, in that order with only
newline-free text between them, `_get_friendly_name` returns that text
(hence the first element's content in the single-element case); when no
`<friendlyName>` occurs at all it returns the sentinel `"Unknown"`. -/
theorem friendly_name_amended (raw : String) (i l : Nat) (raw2 : String)
    (h1 : strFindAll fnOpenTag raw.toList = [i])
    (h2 : strFindAll fnCloseTag raw.toList = [l])
    (h3 : i + fnOpenTag.length ≤ l)
    (h4 : noNl (seg raw.toList (i + fnOpenTag.length) l) = true)
    (h5 : strFindAll fnOpenTag raw2.toList = []) :
    _get_friendly_name raw = String.mk (seg raw.toList (i + fnOpenTag.length) l) ∧
    _get_friendly_name raw2 = "Unknown" := by
  have hc : fnCandidates raw.toList i = [l] := by
    unfold fnCandidates
    rw [h2, List.filter_cons, decide_eq_true h3, h4]
    simp
  have hs : fnStarts raw.toList = [i] := by
    unfold fnStarts
    rw [h1, List.filter_cons, hc]
    simp
  constructor
  · unfold _get_friendly_name
    rw [hs]
    show (match (fnCandidates raw.toList i).getLast? with
          | none => "Unknown"
          | some l => String.mk (seg raw.toList (i + fnOpenTag.length) l)) =
        String.mk (seg raw.toList (i + fnOpenTag.length) l)
    rw [hc]
    rfl
  · have hs2 : fnStarts raw2.toList = [] := by
      unfold fnStarts
      rw [h5]
      rfl
    unfold _get_friendly_name
    rw [hs2]
    rfl

set_option maxRecDepth 100000 in
theorem friendly_name_amended_witness :
    _get_friendly_name "<friendlyName>Living Room TV</friendlyName>" =
      String.mk (seg "<friendlyName>Living Room TV</friendlyName>".toList
        (0 + fnOpenTag.length) 28) ∧
    _get_friendly_name "<device>no name here</device>" = "Unknown" :=
  friendly_name_amended "<friendlyName>Living Room TV</friendlyName>" 0 28
    "<device>no name here</device>"
    (by decide) (by decide) (by decide) (by decide) (by decide)

/-! ## Lemmas on device equality and the discovery loop -/

theorem deviceEq_iff {a b : DlnapDevice} :
    deviceEq a b = true ↔ a.name = b.name ∧ a.ip = b.ip := by
  simp [deviceEq, Bool.and_eq_true]

theorem deviceEq_refl (a : DlnapDevice) : deviceEq a a = true :=
  deviceEq_iff.mpr ⟨rfl, rfl⟩

/-- Multiplicity of the `__eq__`-class of `d` in a device list. -/
def countEq (l : List DlnapDevice) (d : DlnapDevice) : Nat :=
  l.countP (fun x => deviceEq x d)

theorem countEq_append (l1 l2 : List DlnapDevice) (d : DlnapDevice) :
    countEq (l1 ++ l2) d = countEq l1 d + countEq l2 d :=
  List.countP_append _ _ _

theorem countEq_pos {l : List DlnapDevice} {d : DlnapDevice} :
    0 < countEq l d ↔ ∃ x ∈ l, deviceEq x d = true := by
  simp [countEq, List.countP_pos_iff]

theorem countEq_singleton (e d : DlnapDevice) :
    countEq [e] d = if deviceEq e d then 1 else 0 := by
  simp [countEq, List.countP_singleton]

/-! Step equations of `discoverLoop`, one per branch of the loop body. -/

theorem discoverLoop_nil (fetch : String → Option String) (name : String)
    (devices : List DlnapDevice) :
    discoverLoop fetch name [] devices = .ok devices := rfl

theorem discoverLoop_cons_dup (fetch : String → Option String) (name raw ip : String)
    (rest : List (String × String)) (devices : List DlnapDevice)
    (h : devices.any (fun x => deviceEq x (DlnapDevice.init fetch raw ip)) = true) :
    discoverLoop fetch name ((raw, ip) :: rest) devices =
      discoverLoop fetch name rest devices := by
  rw [discoverLoop.eq_def]
  simp only [h, if_true]

theorem discoverLoop_cons_new_empty (fetch : String → Option String) (raw ip : String)
    (rest : List (String × String)) (devices : List DlnapDevice)
    (h : devices.any (fun x => deviceEq x (DlnapDevice.init fetch raw ip)) = false) :
    discoverLoop fetch "" ((raw, ip) :: rest) devices =
      discoverLoop fetch "" rest (devices ++ [DlnapDevice.init fetch raw ip]) := by
  rw [discoverLoop.eq_def]
  simp only [h, Bool.false_eq_true, if_false]
  rfl

theorem discoverLoop_cons_none (fetch : String → Option String) (name raw ip : String)
    (rest : List (String × String)) (devices : List DlnapDevice)
    (hname : name ≠ "")
    (h : devices.any (fun x => deviceEq x (DlnapDevice.init fetch raw ip)) = false)
    (hn : (DlnapDevice.init fetch raw ip).name = none) :
    discoverLoop fetch name ((raw, ip) :: rest) devices = .error "TypeError" := by
  rw [discoverLoop.eq_def]
  simp only [h, Bool.false_eq_true, if_false, if_neg hname, hn]

theorem discoverLoop_cons_keep (fetch : String → Option String) (name raw ip : String)
    (rest : List (String × String)) (devices : List DlnapDevice) (n : String)
    (hname : name ≠ "")
    (h : devices.any (fun x => deviceEq x (DlnapDevice.init fetch raw ip)) = false)
    (hn : (DlnapDevice.init fetch raw ip).name = some n)
    (hk : strContains n name = true) :
    discoverLoop fetch name ((raw, ip) :: rest) devices =
      discoverLoop fetch name rest (devices ++ [DlnapDevice.init fetch raw ip]) := by
  rw [discoverLoop.eq_def]
  simp only [h, Bool.false_eq_true, if_false, if_neg hname, hn, hk, if_true]

theorem discoverLoop_cons_skip (fetch : String → Option String) (name raw ip : String)
    (rest : List (String × String)) (devices : List DlnapDevice) (n : String)
    (hname : name ≠ "")
    (h : devices.any (fun x => deviceEq x (DlnapDevice.init fetch raw ip)) = false)
    (hn : (DlnapDevice.init fetch raw ip).name = some n)
    (hk : strContains n name = false) :
    discoverLoop fetch name ((raw, ip) :: rest) devices =
      discoverLoop fetch name rest devices := by
  rw [discoverLoop.eq_def]
  simp only [h, Bool.false_eq_true, if_false, if_neg hname, hn, hk]

/-- Master invariant of the empty-filter discovery loop: it always
succeeds, class multiplicities never decrease, every processed response's
class reaches multiplicity at least one, multiplicities stay at most one
when they start that way, and every output device either came from the
accumulator or was constructed from some response. -/
theorem discoverLoop_empty_spec (fetch : String → Option String) :
    ∀ (rs : List (String × String)) (acc : List DlnapDevice),
      ∃ l, discoverLoop fetch "" rs acc = .ok l ∧
        (∀ d, countEq acc d ≤ countEq l d) ∧
        (∀ p ∈ rs, 0 < countEq l (DlnapDevice.init fetch p.1 p.2)) ∧
        ((∀ d, countEq acc d ≤ 1) → ∀ d, countEq l d ≤ 1) ∧
        (∀ x ∈ l, x ∈ acc ∨ ∃ p ∈ rs, x = DlnapDevice.init fetch p.1 p.2) := by
  intro rs
  induction rs with
  | nil =>
    intro acc
    exact ⟨acc, rfl, fun d => Nat.le_refl _, by simp, fun hb => hb,
      fun x hx => Or.inl hx⟩
  | cons p rest ih =>
    intro acc
    obtain ⟨raw, ip⟩ := p
    by_cases hdup :
        acc.any (fun x => deviceEq x (DlnapDevice.init fetch raw ip)) = true
    · obtain ⟨l, hok, hmono, hcov, hbound, hprov⟩ := ih acc
      refine ⟨l, ?_, hmono, ?_, hbound, ?_⟩
      · rw [discoverLoop_cons_dup fetch "" raw ip rest acc hdup, hok]
      · intro q hq
        rcases List.mem_cons.mp hq with heq | hmem
        · subst heq
          have hpos : 0 < countEq acc (DlnapDevice.init fetch raw ip) :=
            countEq_pos.mpr (by simpa [List.any_eq_true] using hdup)
          exact Nat.lt_of_lt_of_le hpos (hmono _)
        · exact hcov q hmem
      · intro x hx
        rcases hprov x hx with hin | ⟨q, hq, hxq⟩
        · exact Or.inl hin
        · exact Or.inr ⟨q, List.mem_cons_of_mem _ hq, hxq⟩
    · rw [Bool.not_eq_true] at hdup
      obtain ⟨l, hok, hmono, hcov, hbound, hprov⟩ :=
        ih (acc ++ [DlnapDevice.init fetch raw ip])
      have hnew : ∀ x ∈ acc, deviceEq x (DlnapDevice.init fetch raw ip) = false := by
        intro x hx
        have := List.any_eq_false.mp hdup x hx
        simpa using this
      refine ⟨l, ?_, ?_, ?_, ?_, ?_⟩
      · rw [discoverLoop_cons_new_empty fetch raw ip rest acc hdup, hok]
      · intro d
        refine Nat.le_trans ?_ (hmono d)
        rw [countEq_append]
        exact Nat.le_add_right _ _
      · intro q hq
        rcases List.mem_cons.mp hq with heq | hmem
        · subst heq
          refine Nat.lt_of_lt_of_le ?_ (hmono _)
          rw [countEq_append, countEq_singleton]
          simp [deviceEq_refl]
        · exact hcov q hmem
      · intro hb
        refine hbound ?_
        intro d
        rw [countEq_append, countEq_singleton]
        by_cases he : deviceEq (DlnapDevice.init fetch raw ip) d = true
        · have hzero : countEq acc d = 0 := by
            rw [countEq, List.countP_eq_zero]
            intro x hx
            intro hxd
            have h1 := deviceEq_iff.mp hxd
            have h2 := deviceEq_iff.mp he
            have : deviceEq x (DlnapDevice.init fetch raw ip) = true :=
              deviceEq_iff.mpr ⟨h1.1.trans h2.1.symm, h1.2.trans h2.2.symm⟩
            rw [hnew x hx] at this
            exact Bool.false_ne_true this
          rw [hzero, he, if_pos rfl]
        · rw [Bool.not_eq_true] at he
          rw [he]
          simpa using hb d
      · intro x hx
        rcases hprov x hx with hin | ⟨q, hq, hxq⟩
        · rcases List.mem_append.mp hin with hia | hid
          · exact Or.inl hia
          · exact Or.inr ⟨(raw, ip), List.mem_cons_self _ _,
              by simpa using List.mem_singleton.mp hid⟩
        · exact Or.inr ⟨q, List.mem_cons_of_mem _ hq, hxq⟩

/-- C3: device equality is exactly equality of the `name` and `ip` fields,
and with no name filter the discovery result holds exactly one device of
the `__eq__`-class of any received response — duplicates are collapsed and
the class is represented. -/
theorem deviceEq_dedup (fetch : String → Option String)
    (responses : List (String × String)) (raw ip : String) (a b : DlnapDevice)
    (hmem : (raw, ip) ∈ responses) :
    (deviceEq a b = true ↔ a.name = b.name ∧ a.ip = b.ip) ∧
    (discover fetch "" responses).isOk = true ∧
    countEq (okOrNil (discover fetch "" responses))
      (DlnapDevice.init fetch raw ip) = 1 := by
  refine ⟨deviceEq_iff, ?_⟩
  obtain ⟨l, hok, _, hcov, hbound, _⟩ := discoverLoop_empty_spec fetch responses []
  rw [show discover fetch "" responses = .ok l from hok]
  refine ⟨rfl, ?_⟩
  have h1 : 0 < countEq l (DlnapDevice.init fetch raw ip) := hcov (raw, ip) hmem
  have h2 : countEq l (DlnapDevice.init fetch raw ip) ≤ 1 := by
    refine hbound ?_ _
    intro d
    simp [countEq]
  show countEq l (DlnapDevice.init fetch raw ip) = 1
  omega

theorem deviceEq_dedup_witness :
    (deviceEq
        (DlnapDevice.init (fun _ => some "<friendlyName>TV</friendlyName>")
          "LOCATION: http://10.0.0.5:80/d.xml\r\n" "10.0.0.5")
        (DlnapDevice.init (fun _ => none)
          "LOCATION: http://10.0.0.5:80/d.xml\r\n" "10.0.0.5") = true ↔
      (DlnapDevice.init (fun _ => some "<friendlyName>TV</friendlyName>")
          "LOCATION: http://10.0.0.5:80/d.xml\r\n" "10.0.0.5").name =
        (DlnapDevice.init (fun _ => none)
          "LOCATION: http://10.0.0.5:80/d.xml\r\n" "10.0.0.5").name ∧
      (DlnapDevice.init (fun _ => some "<friendlyName>TV</friendlyName>")
          "LOCATION: http://10.0.0.5:80/d.xml\r\n" "10.0.0.5").ip =
        (DlnapDevice.init (fun _ => none)
          "LOCATION: http://10.0.0.5:80/d.xml\r\n" "10.0.0.5").ip) ∧
    (discover (fun _ => some "<friendlyName>TV</friendlyName>") ""
        [("LOCATION: http://10.0.0.5:80/d.xml\r\n", "10.0.0.5"),
         ("LOCATION: http://10.0.0.5:80/d.xml\r\n", "10.0.0.5")]).isOk = true ∧
    countEq
      (okOrNil (discover (fun _ => some "<friendlyName>TV</friendlyName>") ""
        [("LOCATION: http://10.0.0.5:80/d.xml\r\n", "10.0.0.5"),
         ("LOCATION: http://10.0.0.5:80/d.xml\r\n", "10.0.0.5")]))
      (DlnapDevice.init (fun _ => some "<friendlyName>TV</friendlyName>")
        "LOCATION: http://10.0.0.5:80/d.xml\r\n" "10.0.0.5") = 1 :=
  deviceEq_dedup (fun _ => some "<friendlyName>TV</friendlyName>")
    [("LOCATION: http://10.0.0.5:80/d.xml\r\n", "10.0.0.5"),
     ("LOCATION: http://10.0.0.5:80/d.xml\r\n", "10.0.0.5")]
    "LOCATION: http://10.0.0.5:80/d.xml\r\n" "10.0.0.5"
    (DlnapDevice.init (fun _ => some "<friendlyName>TV</friendlyName>")
      "LOCATION: http://10.0.0.5:80/d.xml\r\n" "10.0.0.5")
    (DlnapDevice.init (fun _ => none)
      "LOCATION: http://10.0.0.5:80/d.xml\r\n" "10.0.0.5")
    (by simp)

/-- A device whose `name` was never set was built from a failed fetch, so
its `control_url` and `has_av_transport` kept their initial values. -/
theorem init_name_none_inv (fetch : String → Option String) (raw ip : String)
    (h : (DlnapDevice.init fetch raw ip).name = none) :
    (DlnapDevice.init fetch raw ip).control_url = none ∧
    (DlnapDevice.init fetch raw ip).has_av_transport = false := by
  cases hf : fetch (_get_location_url raw) with
  | none => unfold DlnapDevice.init; rw [hf]; exact ⟨rfl, rfl⟩
  | some desc =>
    unfold DlnapDevice.init at h
    rw [hf] at h
    simp at h

/-- On a failed fetch the constructor leaves `name` unset. -/
theorem init_name_of_fail (fetch : String → Option String) (raw ip : String)
    (hf : fetch (_get_location_url raw) = none) :
    DlnapDevice.init fetch raw ip =
      { ip := ip, location := _get_location_url raw,
        port := _get_port (_get_location_url raw),
        control_url := none, name := none, has_av_transport := false } := by
  unfold DlnapDevice.init
  rw [hf]

/-- C1 (counterexample): after a failed description fetch the device's
`control_url` is left as the unset `None` — it never becomes the empty
string the claim demands. -/
theorem control_url_unset_not_empty :
    (DlnapDevice.init (fun _ => none) "LOCATION: http://h/d.xml\r\n"
      "10.0.0.1").control_url = none ∧
    (none : Option String) ≠ some "" := by
  exact ⟨rfl, by simp⟩

/-- C1 (amended): a failed description fetch never escapes the
constructor: the device still appears (up to `__eq__`) in the result of an
unfiltered discovery, with `has_av_transport = false` — but with
`control_url` left unset (`None`), not the empty string. -/
theorem failed_fetch_device_retained (fetch : String → Option String)
    (responses : List (String × String)) (raw ip : String)
    (hmem : (raw, ip) ∈ responses)
    (hf : fetch (_get_location_url raw) = none) :
    (DlnapDevice.init fetch raw ip).has_av_transport = false ∧
    (DlnapDevice.init fetch raw ip).control_url = none ∧
    (discover fetch "" responses).isOk = true ∧
    (okOrNil (discover fetch "" responses)).any
      (fun x => x.ip == ip && x.name == none &&
        !x.has_av_transport && x.control_url == none) = true := by
  have hd := init_name_of_fail fetch raw ip hf
  refine ⟨by rw [hd], by rw [hd], ?_⟩
  obtain ⟨l, hok, _, hcov, _, hprov⟩ := discoverLoop_empty_spec fetch responses []
  rw [show discover fetch "" responses = .ok l from hok]
  refine ⟨rfl, ?_⟩
  obtain ⟨x, hxl, hxeq⟩ := countEq_pos.mp (hcov (raw, ip) hmem)
  obtain ⟨hxname, hxip⟩ := deviceEq_iff.mp hxeq
  have hxname' : x.name = none := by rw [hxname, hd]
  have hxip' : x.ip = ip := by rw [hxip, hd]
  rcases hprov x hxl with hin | ⟨q, _, hxq⟩
  · exact absurd hin (List.not_mem_nil x)
  · subst hxq
    obtain ⟨hcu, hav⟩ := init_name_none_inv fetch q.1 q.2 hxname'
    refine List.any_eq_true.mpr ⟨_, hxl, ?_⟩
    simp [hxip', hxname', hav, hcu]

theorem failed_fetch_device_retained_witness :
    (DlnapDevice.init (fun _ => none) "LOCATION: http://h/d.xml\r\n"
      "10.0.0.1").has_av_transport = false ∧
    (DlnapDevice.init (fun _ => none) "LOCATION: http://h/d.xml\r\n"
      "10.0.0.1").control_url = none ∧
    (discover (fun _ => none) ""
      [("LOCATION: http://h/d.xml\r\n", "10.0.0.1")]).isOk = true ∧
    (okOrNil (discover (fun _ => none) ""
      [("LOCATION: http://h/d.xml\r\n", "10.0.0.1")])).any
      (fun x => x.ip == "10.0.0.1" && x.name == none &&
        !x.has_av_transport && x.control_url == none) = true :=
  failed_fetch_device_retained (fun _ => none)
    [("LOCATION: http://h/d.xml\r\n", "10.0.0.1")]
    "LOCATION: http://h/d.xml\r\n" "10.0.0.1" (by simp) rfl

/-- With a non-empty filter, processing reaches the `name in d.name` test
for the first nameless device (nothing in a consistent accumulator can
equal it), and that test raises. -/
theorem discoverLoop_error (fetch : String → Option String) (name : String)
    (hname : name ≠ "") :
    ∀ (rs : List (String × String)) (acc : List DlnapDevice),
      (∀ x ∈ acc, x.name ≠ none) →
      (∃ p ∈ rs, fetch (_get_location_url p.1) = none) →
      discoverLoop fetch name rs acc = .error "TypeError" := by
  intro rs
  induction rs with
  | nil =>
    intro acc _ hex
    simp at hex
  | cons p rest ih =>
    intro acc hacc hex
    obtain ⟨raw, ip⟩ := p
    by_cases hn : (DlnapDevice.init fetch raw ip).name = none
    · have hany :
          acc.any (fun x => deviceEq x (DlnapDevice.init fetch raw ip)) = false := by
        rw [List.any_eq_false]
        intro x hx
        simp only [Bool.not_eq_true]
        rw [Bool.eq_false_iff]
        intro hxd
        exact hacc x hx ((deviceEq_iff.mp hxd).1.trans hn)
      exact discoverLoop_cons_none fetch name raw ip rest acc hname hany hn
    · have hex' : ∃ q ∈ rest, fetch (_get_location_url q.1) = none := by
        rcases hex with ⟨q, hq, hqf⟩
        rcases List.mem_cons.mp hq with heq | hmem
        · exfalso
          apply hn
          rw [heq] at hqf
          rw [init_name_of_fail fetch raw ip hqf]
        · exact ⟨q, hmem, hqf⟩
      obtain ⟨n, hn'⟩ := Option.ne_none_iff_exists'.mp hn
      by_cases hdup :
          acc.any (fun x => deviceEq x (DlnapDevice.init fetch raw ip)) = true
      · rw [discoverLoop_cons_dup fetch name raw ip rest acc hdup]
        exact ih acc hacc hex'
      · rw [Bool.not_eq_true] at hdup
        by_cases hk : strContains n name = true
        · rw [discoverLoop_cons_keep fetch name raw ip rest acc n hname hdup hn' hk]
          refine ih _ ?_ hex'
          intro x hx
          rcases List.mem_append.mp hx with hxa | hxd
          · exact hacc x hxa
          · rw [List.mem_singleton.mp hxd, hn']
            simp
        · rw [Bool.not_eq_true] at hk
          rw [discoverLoop_cons_skip fetch name raw ip rest acc n hname hdup hn' hk]
          exact ih acc hacc hex'

/-- C10: with a non-empty name filter, any received response whose
description fetch fails makes `discover` raise `TypeError` from the
`name in d.name` substring test (`d.name` is still `None` there) instead of
returning a device list. -/
theorem filter_fetch_fail_raises (fetch : String → Option String) (name : String)
    (responses : List (String × String))
    (h1 : name ≠ "")
    (h2 : ∃ p ∈ responses, fetch (_get_location_url p.1) = none) :
    discover fetch name responses = .error "TypeError" :=
  discoverLoop_error fetch name h1 responses [] (by simp) h2

theorem filter_fetch_fail_raises_witness :
    discover (fun _ => none) "TV"
      [("LOCATION: http://10.0.0.5:80/d.xml\r\n", "10.0.0.5")] =
      .error "TypeError" :=
  filter_fetch_fail_raises (fun _ => none) "TV"
    [("LOCATION: http://10.0.0.5:80/d.xml\r\n", "10.0.0.5")]
    (by simp) ⟨("LOCATION: http://10.0.0.5:80/d.xml\r\n", "10.0.0.5"), by simp, rfl⟩

theorem nameFilterKeep_of_name {f : String} (hf : f ≠ "") {d : DlnapDevice}
    {n : String} (hn : d.name = some n) :
    nameFilterKeep f d = strContains n f := by
  simp [nameFilterKeep, hn, hf]

/-- Running the loop with a non-empty filter `f` (on responses whose
devices all carry names) tracks the empty-filter run: its accumulator and
its result are the `nameFilterKeep f`-filtered images.  The key fact is
that `nameFilterKeep` reads only the `name` field, which `__eq__`-equal
devices share. -/
theorem discoverLoop_filter (fetch : String → Option String) (f : String)
    (hf : f ≠ "") :
    ∀ (rs : List (String × String)) (uacc l : List DlnapDevice),
      (∀ p ∈ rs, ((DlnapDevice.init fetch p.1 p.2).name).isSome = true) →
      discoverLoop fetch "" rs uacc = .ok l →
      discoverLoop fetch f rs (uacc.filter (nameFilterKeep f)) =
        .ok (l.filter (nameFilterKeep f)) := by
  intro rs
  induction rs with
  | nil =>
    intro uacc l _ hok
    rw [discoverLoop_nil] at hok
    cases hok
    exact discoverLoop_nil fetch f _
  | cons p rest ih =>
    intro uacc l hnames hok
    obtain ⟨raw, ip⟩ := p
    have hdsome := hnames (raw, ip) (List.mem_cons_self _ _)
    obtain ⟨n, hn⟩ := Option.isSome_iff_exists.mp hdsome
    have hnames' :
        ∀ q ∈ rest, ((DlnapDevice.init fetch q.1 q.2).name).isSome = true :=
      fun q hq => hnames q (List.mem_cons_of_mem _ hq)
    by_cases hdup :
        uacc.any (fun x => deviceEq x (DlnapDevice.init fetch raw ip)) = true
    · rw [discoverLoop_cons_dup fetch "" raw ip rest uacc hdup] at hok
      by_cases hdupf :
          (uacc.filter (nameFilterKeep f)).any
            (fun x => deviceEq x (DlnapDevice.init fetch raw ip)) = true
      · rw [discoverLoop_cons_dup fetch f raw ip rest _ hdupf]
        exact ih uacc l hnames' hok
      · rw [Bool.not_eq_true] at hdupf
        obtain ⟨x, hxu, hxd⟩ := List.any_eq_true.mp hdup
        have hxkeep : nameFilterKeep f x = false := by
          by_contra hb
          rw [Bool.not_eq_false] at hb
          have hxf : x ∈ uacc.filter (nameFilterKeep f) :=
            List.mem_filter.mpr ⟨hxu, hb⟩
          have := List.any_eq_false.mp hdupf x hxf
          simp [hxd] at this
        have hxname : x.name = some n := by
          rw [(deviceEq_iff.mp hxd).1, hn]
        have hkn : strContains n f = false := by
          rw [← nameFilterKeep_of_name hf hxname]
          exact hxkeep
        rw [discoverLoop_cons_skip fetch f raw ip rest _ n hf hdupf hn hkn]
        exact ih uacc l hnames' hok
    · rw [Bool.not_eq_true] at hdup
      rw [discoverLoop_cons_new_empty fetch raw ip rest uacc hdup] at hok
      have hdupf :
          (uacc.filter (nameFilterKeep f)).any
            (fun x => deviceEq x (DlnapDevice.init fetch raw ip)) = false := by
        rw [List.any_eq_false]
        intro x hx
        exact List.any_eq_false.mp hdup x (List.mem_filter.mp hx).1
      by_cases hk : strContains n f = true
      · rw [discoverLoop_cons_keep fetch f raw ip rest _ n hf hdupf hn hk]
        have hfilter :
            (uacc.filter (nameFilterKeep f)) ++ [DlnapDevice.init fetch raw ip] =
              (uacc ++ [DlnapDevice.init fetch raw ip]).filter (nameFilterKeep f) := by
          rw [List.filter_append]
          congr 1
          simp [List.filter, nameFilterKeep_of_name hf hn, hk]
        rw [hfilter]
        exact ih (uacc ++ [DlnapDevice.init fetch raw ip]) l hnames' hok
      · rw [Bool.not_eq_true] at hk
        rw [discoverLoop_cons_skip fetch f raw ip rest _ n hf hdupf hn hk]
        have hfilter :
            uacc.filter (nameFilterKeep f) =
              (uacc ++ [DlnapDevice.init fetch raw ip]).filter (nameFilterKeep f) := by
          rw [List.filter_append]
          simp [List.filter, nameFilterKeep_of_name hf hn, hk]
        rw [hfilter]
        exact ih (uacc ++ [DlnapDevice.init fetch raw ip]) l hnames' hok

/-- C5: over any response set whose devices all obtain names, discovery
with filter `f` returns exactly the devices of the unfiltered run whose
name contains `f` as a (case-sensitive) substring; the empty filter keeps
everything, and a filter matching nothing yields `ok []`, not an error. -/
theorem name_filter_keeps_matching (fetch : String → Option String) (f : String)
    (responses : List (String × String))
    (h : ∀ p ∈ responses, ((DlnapDevice.init fetch p.1 p.2).name).isSome = true) :
    (discover fetch "" responses).isOk = true ∧
    discover fetch f responses =
      .ok ((okOrNil (discover fetch "" responses)).filter (nameFilterKeep f)) := by
  obtain ⟨l, hok, _, _, _, _⟩ := discoverLoop_empty_spec fetch responses []
  rw [show discover fetch "" responses = .ok l from hok]
  refine ⟨rfl, ?_⟩
  by_cases hf : f = ""
  · subst hf
    show discover fetch "" responses = _
    rw [show discover fetch "" responses = .ok l from hok]
    congr 1
    symm
    apply List.filter_eq_self.mpr
    intro x _
    simp [nameFilterKeep]
  · have := discoverLoop_filter fetch f hf responses [] l h hok
    simpa [discover] using this

theorem name_filter_keeps_matching_witness :
    (discover (fun _ => some "<friendlyName>Living Room TV</friendlyName>") ""
      [("LOCATION: http://10.0.0.5:80/d.xml\r\n", "10.0.0.5")]).isOk = true ∧
    discover (fun _ => some "<friendlyName>Living Room TV</friendlyName>") "TV"
      [("LOCATION: http://10.0.0.5:80/d.xml\r\n", "10.0.0.5")] =
      .ok ((okOrNil
        (discover (fun _ => some "<friendlyName>Living Room TV</friendlyName>") ""
          [("LOCATION: http://10.0.0.5:80/d.xml\r\n", "10.0.0.5")])).filter
        (nameFilterKeep "TV")) :=
  name_filter_keeps_matching
    (fun _ => some "<friendlyName>Living Room TV</friendlyName>") "TV"
    [("LOCATION: http://10.0.0.5:80/d.xml\r\n", "10.0.0.5")] (by decide)

end Dlnap
